import Mathlib

/-!
Shallow embedding of the client-side state machine of
`src/index.tsx` (Virtual room enhancement using Gemini AI).

The module-level mutable variables of the script become the fields of
`AppState`; each event handler becomes a pure state-transformer
`AppState → AppState`.  DOM writes are modelled as fields of `AppState`
(an output sink): the `src` attribute of an image element is modelled
by the pair of base64 data and MIME type that the code interpolates
into the data URL, hidden/visible CSS classes by `Bool` fields, the
`disabled` attribute by a `Bool` field, `textContent` by a `String`
field.  The remote Gemini
calls themselves are external; what is embedded is the synchronous
continuation that runs when a styling response arrives
(`styleRoomContinuation`).  JavaScript truthiness tests on the nullable
string variables (`if (lastStyledImageBase64)`) are modelled by
`truthy`, which is false exactly on `none` and on the empty string.
All zoom arithmetic in the source uses quarter-step values that are
exact in binary floating point, so `ℚ` is a faithful model.
-/

namespace VirtualRoom

/-- The `HistoryState` interface of `src/index.tsx` (lines 98-101):
one undo/redo snapshot, a base64 image string plus its MIME type. -/
structure HistoryState where
  imageBase64 : String
  mimeType : String
deriving DecidableEq, Repr

/-- `MAX_HISTORY` (line 104). -/
def MAX_HISTORY : Nat := 20

/-- One part of a styling response (`response.candidates[0].content.parts`):
possibly a text fragment, possibly inline image data. -/
structure GenPart where
  text : Option String
  inlineData : Option HistoryState
deriving DecidableEq, Repr

/-- The module-level mutable state of `src/index.tsx` together with the
DOM sinks the embedded handlers write to. -/
structure AppState where
  currentImageBase64 : Option String
  currentMimeType : Option String
  originalImageBase64 : Option String
  originalMimeType : Option String
  lastStyledImageBase64 : Option String
  lastStyledMimeType : Option String
  clickPosition : Option (ℚ × ℚ)
  history : List HistoryState
  historyIndex : Int
  zoomLevel : ℚ
  isDragging : Bool
  dragStartX : ℚ
  dragStartY : ℚ
  translateX : ℚ
  translateY : ℚ
  isComparisonMode : Bool
  sliderPosition : ℚ
  -- DOM sinks
  roomImageSrc : Option HistoryState
  roomImageVisible : Bool
  imageContainerZoomed : Bool
  placementMarkerHidden : Bool
  beforeAfterHidden : Bool
  beforeImageSrc : Option HistoryState
  afterImageSrc : Option HistoryState
  responseText : String
  toastMsg : Option String
  loadingVisible : Bool
  loadingText : String
  styleButtonDisabled : Bool
  promptDisabled : Bool
  videoButtonDisabled : Bool
  videoControlsHidden : Bool
  videoContainerHidden : Bool
  undoDisabled : Bool
  redoDisabled : Bool
  downloadDisabled : Bool
  shareDisabled : Bool
  copyDisabled : Bool
  estimateCostDisabled : Bool
  toggleComparisonDisabled : Bool
  zoomInDisabled : Bool
  zoomOutDisabled : Bool
  zoomResetDisabled : Bool
  suggestionsPanelHidden : Bool
  costPanelHidden : Bool
deriving DecidableEq, Repr

/-- JavaScript truthiness of a nullable string: `null` and `""` are
falsy, every other string is truthy. -/
def truthy : Option String → Bool
  | none => false
  | some str => str != ""

/-- `updateRoomImage` (lines 168-170): writes the data URL of the given
image into the main image element. -/
def updateRoomImage (base64 mimeType : String) (s : AppState) : AppState :=
  { s with roomImageSrc := some ⟨base64, mimeType⟩ }

/-- `showToast` (lines 175-181); the timed removal is not modelled. -/
def showToast (message : String) (s : AppState) : AppState :=
  { s with toastMsg := some message }

/-- `setLoading` (lines 128-141); the message-interval cleanup is a
timer concern and is not modelled. -/
def setLoading (isLoading : Bool) (message : String) (s : AppState) : AppState :=
  { s with loadingVisible := isLoading
           styleButtonDisabled := isLoading
           videoButtonDisabled := isLoading || !truthy s.lastStyledImageBase64
           promptDisabled := isLoading
           loadingText := message }

/-- `updateHistoryButtons` (lines 208-211). -/
def updateHistoryButtons (s : AppState) : AppState :=
  { s with undoDisabled := decide (s.historyIndex ≤ 0)
           redoDisabled := decide (s.historyIndex ≥ (s.history.length : Int) - 1) }

/-- `updateActionButtons` (lines 252-265). -/
def updateActionButtons (s : AppState) : AppState :=
  let hasImage := truthy s.lastStyledImageBase64
  let hasCurrentImage := truthy s.currentImageBase64
  { s with downloadDisabled := !hasImage
           shareDisabled := !hasImage
           copyDisabled := !hasImage
           estimateCostDisabled := !hasImage
           toggleComparisonDisabled := !hasImage
           zoomInDisabled := !hasCurrentImage
           zoomOutDisabled := !hasCurrentImage
           zoomResetDisabled := !hasCurrentImage }

/-- `resetPlacementMarker` (lines 338-341). -/
def resetPlacementMarker (s : AppState) : AppState :=
  { s with clickPosition := none, placementMarkerHidden := true }

/-- `addToHistory` (lines 186-203).  `history.splice(historyIndex + 1)`
keeps the first `historyIndex + 1` entries; `history.shift()` removes
the first entry and, in the source, does not touch `historyIndex`. -/
def addToHistory (imageBase64 mimeType : String) (s : AppState) : AppState :=
  let hist :=
    if s.historyIndex < (s.history.length : Int) - 1
    then s.history.take (s.historyIndex + 1).toNat
    else s.history
  let hist := hist ++ [⟨imageBase64, mimeType⟩]
  let s' :=
    if hist.length > MAX_HISTORY
    then { s with history := hist.tail }
    else { s with history := hist, historyIndex := s.historyIndex + 1 }
  updateHistoryButtons s'

/-- `handleUndo` (lines 216-229).  An out-of-range read of
`history[historyIndex]` would throw in JavaScript after the decrement
has already happened; that branch therefore keeps only the decrement. -/
def handleUndo (s : AppState) : AppState :=
  if 0 < s.historyIndex then
    match s.history[(s.historyIndex - 1).toNat]? with
    | some st =>
        showToast "Undone" (updateActionButtons (updateHistoryButtons
          { s with historyIndex := s.historyIndex - 1
                   currentImageBase64 := some st.imageBase64
                   currentMimeType := some st.mimeType
                   lastStyledImageBase64 := some st.imageBase64
                   lastStyledMimeType := some st.mimeType
                   roomImageSrc := some st }))
    | none => { s with historyIndex := s.historyIndex - 1 }
  else s

/-- `handleRedo` (lines 234-247); same out-of-range convention as
`handleUndo`. -/
def handleRedo (s : AppState) : AppState :=
  if s.historyIndex < (s.history.length : Int) - 1 then
    match s.history[(s.historyIndex + 1).toNat]? with
    | some st =>
        showToast "Redone" (updateActionButtons (updateHistoryButtons
          { s with historyIndex := s.historyIndex + 1
                   currentImageBase64 := some st.imageBase64
                   currentMimeType := some st.mimeType
                   lastStyledImageBase64 := some st.imageBase64
                   lastStyledMimeType := some st.mimeType
                   roomImageSrc := some st }))
    | none => { s with historyIndex := s.historyIndex + 1 }
  else s

/-- `setNewBaseImage` (lines 365-395).  Note: the source resets the
styled image, the video controls, the comparison mode and the side
panels, but it touches neither the `history` array, `historyIndex`,
nor any zoom/pan variable. -/
def setNewBaseImage (base64 mimeType : String) (s : AppState) : AppState :=
  let s := { s with currentImageBase64 := some base64
                    currentMimeType := some mimeType
                    originalImageBase64 := some base64
                    originalMimeType := some mimeType }
  let s := updateRoomImage base64 mimeType s
  let s := resetPlacementMarker s
  let s := { s with lastStyledImageBase64 := none
                    lastStyledMimeType := none
                    videoControlsHidden := true
                    videoButtonDisabled := true
                    videoContainerHidden := true }
  let s :=
    if s.isComparisonMode then
      { s with isComparisonMode := false
               roomImageVisible := true
               beforeAfterHidden := true }
    else s
  let s := updateActionButtons s
  { s with suggestionsPanelHidden := true, costPanelHidden := true }

/-- `handleZoomIn` (lines 416-422).  `updateImageTransform` only writes
the CSS transform derived from the zoom fields and is not modelled
separately. -/
def handleZoomIn (s : AppState) : AppState :=
  if s.zoomLevel < 3 then
    { s with zoomLevel := s.zoomLevel + 0.25, imageContainerZoomed := true }
  else s

/-- `handleZoomOut` (lines 424-435). -/
def handleZoomOut (s : AppState) : AppState :=
  if s.zoomLevel > 1 then
    let z := s.zoomLevel - 0.25
    if z = 1 then
      { s with zoomLevel := z, imageContainerZoomed := false
               translateX := 0, translateY := 0 }
    else { s with zoomLevel := z }
  else s

/-- `handleZoomReset` (lines 437-443). -/
def handleZoomReset (s : AppState) : AppState :=
  { s with zoomLevel := 1, translateX := 0, translateY := 0
           imageContainerZoomed := false }

/-- `handleDragStart` (lines 445-452); the cursor style is not modelled. -/
def handleDragStart (clientX clientY : ℚ) (s : AppState) : AppState :=
  if s.zoomLevel > 1 then
    { s with isDragging := true
             dragStartX := clientX - s.translateX
             dragStartY := clientY - s.translateY }
  else s

/-- `handleDragMove` (lines 454-460). -/
def handleDragMove (clientX clientY : ℚ) (s : AppState) : AppState :=
  if s.isDragging && s.zoomLevel > 1 then
    { s with translateX := clientX - s.dragStartX
             translateY := clientY - s.dragStartY }
  else s

/-- `handleDragEnd` (lines 462-467). -/
def handleDragEnd (s : AppState) : AppState :=
  if s.isDragging then { s with isDragging := false } else s

/-- `toggleComparison` (lines 641-665).  The before image is taken from
the ORIGINAL slots, the after image from the lastStyled slots; the
`current` slots are not read.  `updateComparisonSlider` only renders
`sliderPosition` and is not modelled separately. -/
def toggleComparison (s : AppState) : AppState :=
  let s := { s with isComparisonMode := !s.isComparisonMode }
  if s.isComparisonMode then
    let s := { s with roomImageVisible := false, beforeAfterHidden := false }
    let s :=
      match s.originalImageBase64, s.originalMimeType with
      | some ob, some om =>
          if ob != "" && om != "" then { s with beforeImageSrc := some ⟨ob, om⟩ } else s
      | _, _ => s
    match s.lastStyledImageBase64, s.lastStyledMimeType with
    | some lb, some lm =>
        if lb != "" && lm != "" then { s with afterImageSrc := some ⟨lb, lm⟩ } else s
    | _, _ => s
  else
    { s with roomImageVisible := true, beforeAfterHidden := true }

/-- The body of the `for (const part of ...parts)` loop in
`handleStyleRoom` (lines 734-760), threaded through a `foundImage`
flag. -/
def applyStylePart (acc : AppState × Bool) (part : GenPart) : AppState × Bool :=
  match part.text with
  | some t =>
      if t != "" then ({ acc.1 with responseText := t }, acc.2)
      else
        match part.inlineData with
        | some d => (applyInline acc.1 d, true)
        | none => acc
  | none =>
      match part.inlineData with
      | some d => (applyInline acc.1 d, true)
      | none => acc
where
  /-- The `else if (part.inlineData)` branch (lines 737-759). -/
  applyInline (s : AppState) (d : HistoryState) : AppState :=
    let s := { s with currentImageBase64 := some d.imageBase64
                      currentMimeType := some d.mimeType }
    let s := updateRoomImage d.imageBase64 d.mimeType s
    let s := { s with lastStyledImageBase64 := some d.imageBase64
                      lastStyledMimeType := some d.mimeType }
    let s := addToHistory d.imageBase64 d.mimeType s
    let s := updateActionButtons s
    let s := { s with videoControlsHidden := false, videoButtonDisabled := false }
    showToast "Room styled successfully!" s

/-- The response-processing part of `handleStyleRoom` (lines 733-764):
the part loop followed by the no-image soft-failure message. -/
def applyStyleResponse (parts : List GenPart) (s : AppState) : AppState :=
  let r := parts.foldl applyStylePart (s, false)
  if r.2 then r.1
  else { r.1 with responseText :=
          "The model did not return an image. Please try a different prompt." }

/-- The whole continuation of `handleStyleRoom` that runs when the
awaited styling response arrives (lines 733-771): process the parts,
then `setLoading(false)` from the `finally` block.  The source contains
no check that the base image is still the one the request was made
from. -/
def styleRoomContinuation (parts : List GenPart) (s : AppState) : AppState :=
  setLoading false "Processing..." (applyStyleResponse parts s)

/-- The state right after the module-level declarations run: every image
slot is `null`, `history` is empty with index `-1`, zoom is 1 with no
translation, comparison mode is off with the slider at 50%.  The
initial `disabled`/`hidden` attributes come from the page markup, which
is not part of `src/`; they are irrelevant to every theorem below. -/
def initState : AppState where
  currentImageBase64 := none
  currentMimeType := none
  originalImageBase64 := none
  originalMimeType := none
  lastStyledImageBase64 := none
  lastStyledMimeType := none
  clickPosition := none
  history := []
  historyIndex := -1
  zoomLevel := 1
  isDragging := false
  dragStartX := 0
  dragStartY := 0
  translateX := 0
  translateY := 0
  isComparisonMode := false
  sliderPosition := 50
  roomImageSrc := none
  roomImageVisible := true
  imageContainerZoomed := false
  placementMarkerHidden := true
  beforeAfterHidden := true
  beforeImageSrc := none
  afterImageSrc := none
  responseText := ""
  toastMsg := none
  loadingVisible := false
  loadingText := ""
  styleButtonDisabled := false
  promptDisabled := false
  videoButtonDisabled := true
  videoControlsHidden := true
  videoContainerHidden := true
  undoDisabled := true
  redoDisabled := true
  downloadDisabled := true
  shareDisabled := true
  copyDisabled := true
  estimateCostDisabled := true
  toggleComparisonDisabled := true
  zoomInDisabled := false
  zoomOutDisabled := false
  zoomResetDisabled := false
  suggestionsPanelHidden := true
  costPanelHidden := true

/-- The user/timer events whose handlers touch the modelled state.  A
styling response is modelled as an event that may arrive at any time,
which over-approximates the set of reachable states (a response only
actually arrives after a request was sent). -/
inductive Event where
  | newBase (base64 mimeType : String)
  | styleResponse (parts : List GenPart)
  | undo
  | redo
  | zoomIn
  | zoomOut
  | zoomReset
  | dragStart (clientX clientY : ℚ)
  | dragMove (clientX clientY : ℚ)
  | dragEnd
  | toggleComp

/-- Dispatch of an event to its handler. -/
def step : Event → AppState → AppState
  | .newBase b m, s => setNewBaseImage b m s
  | .styleResponse ps, s => styleRoomContinuation ps s
  | .undo, s => handleUndo s
  | .redo, s => handleRedo s
  | .zoomIn, s => handleZoomIn s
  | .zoomOut, s => handleZoomOut s
  | .zoomReset, s => handleZoomReset s
  | .dragStart x y, s => handleDragStart x y s
  | .dragMove x y, s => handleDragMove x y s
  | .dragEnd, s => handleDragEnd s
  | .toggleComp, s => toggleComparison s

/-- States reachable from the initial state by any event sequence. -/
inductive Reachable : AppState → Prop where
  | init : Reachable initState
  | step : ∀ {s} (e : Event), Reachable s → Reachable (step e s)

/-! ## Concrete scenario states

A short session used by several theorems below: pick a base image,
style it twice, undo once.  Every one of these states is reachable by
construction. -/

/-- First styled result. -/
def imgA : HistoryState := ⟨"imgA", "image/png"⟩

/-- Second styled result. -/
def imgB : HistoryState := ⟨"imgB", "image/png"⟩

/-- State after the user picks the base image "base0". -/
def baseState : AppState := setNewBaseImage "base0" "image/jpeg" initState

/-- State after one successful styling (history [imgA], cursor 0). -/
def styledOnce : AppState := styleRoomContinuation [⟨none, some imgA⟩] baseState

/-- State after a second successful styling (history [imgA, imgB],
cursor 1). -/
def styledTwice : AppState :=
  styleRoomContinuation [⟨some "styled it", none⟩, ⟨none, some imgB⟩] styledOnce

/-- State after pressing undo once from `styledTwice` (cursor 0,
current = lastStyled = imgA). -/
def undoneState : AppState := handleUndo styledTwice

/-- A stale styling response: an image part generated from the old base
image, arriving only after the user has already set a new base image. -/
def stalePart : GenPart := ⟨none, some ⟨"staleStyled", "image/png"⟩⟩

/-- Zoomed-and-panned state: two zoom-ins (factor 1.5) and a drag that
moved the image by (7, 9). -/
def zoomedPanned : AppState :=
  handleDragMove 7 9 (handleDragStart 0 0 (handleZoomIn (handleZoomIn baseState)))

/-- Maximally zoomed state: eight zoom-ins from `baseState` reach the
3.0 bound. -/
def zoomMax : AppState :=
  handleZoomIn (handleZoomIn (handleZoomIn (handleZoomIn
    (handleZoomIn (handleZoomIn (handleZoomIn (handleZoomIn baseState)))))))

/-! ## Shared frame lemmas -/

/-- `handleUndo` never touches the history array, the original slots,
or any view field. -/
theorem handleUndo_frame (s : AppState) :
    (handleUndo s).history = s.history
    ∧ (handleUndo s).originalImageBase64 = s.originalImageBase64
    ∧ (handleUndo s).originalMimeType = s.originalMimeType
    ∧ (handleUndo s).zoomLevel = s.zoomLevel
    ∧ (handleUndo s).translateX = s.translateX
    ∧ (handleUndo s).translateY = s.translateY
    ∧ (handleUndo s).isComparisonMode = s.isComparisonMode
    ∧ (handleUndo s).sliderPosition = s.sliderPosition := by
  unfold handleUndo
  split
  · split <;> simp [showToast, updateActionButtons, updateHistoryButtons]
  · simp

/-- `handleRedo` never touches the history array, the original slots,
or any view field. -/
theorem handleRedo_frame (s : AppState) :
    (handleRedo s).history = s.history
    ∧ (handleRedo s).originalImageBase64 = s.originalImageBase64
    ∧ (handleRedo s).originalMimeType = s.originalMimeType
    ∧ (handleRedo s).zoomLevel = s.zoomLevel
    ∧ (handleRedo s).translateX = s.translateX
    ∧ (handleRedo s).translateY = s.translateY
    ∧ (handleRedo s).isComparisonMode = s.isComparisonMode
    ∧ (handleRedo s).sliderPosition = s.sliderPosition := by
  unfold handleRedo
  split
  · split <;> simp [showToast, updateActionButtons, updateHistoryButtons]
  · simp

/-- `setNewBaseImage` forces comparison mode off but leaves every
zoom/pan variable untouched. -/
theorem setNewBaseImage_view (b m : String) (s : AppState) :
    (setNewBaseImage b m s).isComparisonMode = false
    ∧ (setNewBaseImage b m s).zoomLevel = s.zoomLevel
    ∧ (setNewBaseImage b m s).translateX = s.translateX
    ∧ (setNewBaseImage b m s).translateY = s.translateY := by
  unfold setNewBaseImage updateActionButtons updateRoomImage resetPlacementMarker
  dsimp only
  split <;> simp_all

/-- `toggleComparison` leaves every zoom/pan variable untouched. -/
theorem toggleComparison_view (s : AppState) :
    (toggleComparison s).zoomLevel = s.zoomLevel
    ∧ (toggleComparison s).translateX = s.translateX
    ∧ (toggleComparison s).translateY = s.translateY := by
  unfold toggleComparison
  dsimp only
  repeat' split
  all_goals simp_all

/-- One styling-loop step leaves the zoom/pan variables untouched. -/
theorem applyStylePart_view (acc : AppState × Bool) (p : GenPart) :
    (applyStylePart acc p).1.zoomLevel = acc.1.zoomLevel
    ∧ (applyStylePart acc p).1.translateX = acc.1.translateX
    ∧ (applyStylePart acc p).1.translateY = acc.1.translateY := by
  unfold applyStylePart applyStylePart.applyInline
  unfold addToHistory updateHistoryButtons updateActionButtons updateRoomImage showToast
  rcases p with ⟨pt, pd⟩
  rcases pt with _ | t <;> rcases pd with _ | d <;> dsimp only <;>
    repeat' first | split | simp_all

/-- The whole styling continuation leaves the zoom/pan variables
untouched. -/
theorem styleRoomContinuation_view (parts : List GenPart) (s : AppState) :
    (styleRoomContinuation parts s).zoomLevel = s.zoomLevel
    ∧ (styleRoomContinuation parts s).translateX = s.translateX
    ∧ (styleRoomContinuation parts s).translateY = s.translateY := by
  have key : ∀ (ps : List GenPart) (acc : AppState × Bool),
      (ps.foldl applyStylePart acc).1.zoomLevel = acc.1.zoomLevel
      ∧ (ps.foldl applyStylePart acc).1.translateX = acc.1.translateX
      ∧ (ps.foldl applyStylePart acc).1.translateY = acc.1.translateY := by
    intro ps
    induction ps with
    | nil => intro acc; simp
    | cons p ps ih =>
        intro acc
        obtain ⟨h1, h2, h3⟩ := ih (applyStylePart acc p)
        obtain ⟨g1, g2, g3⟩ := applyStylePart_view acc p
        simp only [List.foldl_cons]
        exact ⟨h1.trans g1, h2.trans g2, h3.trans g3⟩
  obtain ⟨h1, h2, h3⟩ := key parts (s, false)
  unfold styleRoomContinuation applyStyleResponse setLoading
  dsimp only
  split <;> simp_all

/-! ## Claims -/

/-- C1: the claim says that after `setNewBaseImage` the history ledger
is empty and `canUndo()` is false.  The code never clears `history` or
`historyIndex` and `setNewBaseImage` does not even recompute the
undo/redo button states: starting from a state with two styled
snapshots and cursor 1, setting a new base image clears `lastStyled`
but keeps the two snapshots, keeps the cursor at 1, and leaves the undo
button enabled. -/
theorem C1_setBaseImage_keeps_ledger :
    (setNewBaseImage "newBase" "image/png" styledTwice).history = [imgA, imgB]
    ∧ (setNewBaseImage "newBase" "image/png" styledTwice).historyIndex = 1
    ∧ (setNewBaseImage "newBase" "image/png" styledTwice).undoDisabled = false
    ∧ (setNewBaseImage "newBase" "image/png" styledTwice).lastStyledImageBase64 = none := by
  with_unfolding_all decide

/-- C2: the claim says a styling response that arrives after the user
has set a new base image is discarded.  The continuation of
`handleStyleRoom` has no staleness check: run on the state produced by
`setNewBaseImage "newBase"`, a stale response overwrites `current` and
`lastStyled` with the stale image and pushes it onto the history. -/
theorem C2_stale_response_applied :
    (setNewBaseImage "newBase" "image/png" styledOnce).currentImageBase64 = some "newBase"
    ∧ (styleRoomContinuation [stalePart]
        (setNewBaseImage "newBase" "image/png" styledOnce)).currentImageBase64
        = some "staleStyled"
    ∧ (styleRoomContinuation [stalePart]
        (setNewBaseImage "newBase" "image/png" styledOnce)).lastStyledImageBase64
        = some "staleStyled"
    ∧ (styleRoomContinuation [stalePart]
        (setNewBaseImage "newBase" "image/png" styledOnce)).history
        = [imgA, ⟨"staleStyled", "image/png"⟩] := by
  with_unfolding_all decide

/-- C5 counterexample: the claim quantifies over every ledger state,
but when the cursor is at 0 with a redoable entry ahead (the reachable
state `undoneState`), undo is a no-op while redo still advances: the
pair changes `current` from imgA to imgB and the cursor from 0 to 1. -/
theorem C5_claim_false_at_cursor_zero :
    undoneState.historyIndex = 0
    ∧ undoneState.currentImageBase64 = some "imgA"
    ∧ (handleRedo (handleUndo undoneState)).currentImageBase64 ≠ undoneState.currentImageBase64
    ∧ (handleRedo (handleUndo undoneState)).historyIndex ≠ undoneState.historyIndex := by
  with_unfolding_all decide

/-- C6 counterexample: the claim says `setNewBaseImage` resets
zoomFactor to 1 and pan to (0,0).  From the reachable state
`zoomedPanned` (zoom 1.5, pan (7,9)), setting a new base image keeps
zoom at 1.5 and pan at (7,9); only the comparison mode is forced off. -/
theorem C6_claim_false_zoom_survives :
    (setNewBaseImage "B" "image/png" zoomedPanned).zoomLevel = 3/2
    ∧ (setNewBaseImage "B" "image/png" zoomedPanned).zoomLevel ≠ 1
    ∧ (setNewBaseImage "B" "image/png" zoomedPanned).translateX = 7
    ∧ (setNewBaseImage "B" "image/png" zoomedPanned).translateY = 9
    ∧ (setNewBaseImage "B" "image/png" zoomedPanned).isComparisonMode = false := by
  with_unfolding_all decide

/-- C7 counterexample: the claim says toggling comparison with
`lastStyled` null is a no-op that leaves comparisonMode false and shows
a message.  In `baseState`, `lastStyled` is null, yet `toggleComparison`
enters comparison mode and shows no message (toast and response text
are untouched). -/
theorem C7_claim_false_toggle_unguarded :
    baseState.lastStyledImageBase64 = none
    ∧ (toggleComparison baseState).isComparisonMode = true
    ∧ (toggleComparison baseState).toastMsg = baseState.toastMsg
    ∧ (toggleComparison baseState).responseText = baseState.responseText := by
  with_unfolding_all decide

/-- C10: undo and redo leave the history sequence itself unchanged and
leave the original image slots unchanged; of the modelled data they
modify only the cursor, the current/lastStyled slots and the rendering
sinks — every view field (zoom, pan, comparison flag, slider) is also
preserved. -/
theorem C10_undo_redo_frame (s : AppState) :
    (handleUndo s).history = s.history
    ∧ (handleRedo s).history = s.history
    ∧ (handleUndo s).originalImageBase64 = s.originalImageBase64
    ∧ (handleUndo s).originalMimeType = s.originalMimeType
    ∧ (handleRedo s).originalImageBase64 = s.originalImageBase64
    ∧ (handleRedo s).originalMimeType = s.originalMimeType
    ∧ (handleUndo s).zoomLevel = s.zoomLevel
    ∧ (handleRedo s).zoomLevel = s.zoomLevel
    ∧ (handleUndo s).translateX = s.translateX
    ∧ (handleUndo s).translateY = s.translateY
    ∧ (handleRedo s).translateX = s.translateX
    ∧ (handleRedo s).translateY = s.translateY
    ∧ (handleUndo s).isComparisonMode = s.isComparisonMode
    ∧ (handleRedo s).isComparisonMode = s.isComparisonMode
    ∧ (handleUndo s).sliderPosition = s.sliderPosition
    ∧ (handleRedo s).sliderPosition = s.sliderPosition := by
  obtain ⟨u1, u2, u3, u4, u5, u6, u7, u8⟩ := handleUndo_frame s
  obtain ⟨r1, r2, r3, r4, r5, r6, r7, r8⟩ := handleRedo_frame s
  exact ⟨u1, r1, u2, u3, r2, r3, u4, r4, u5, u6, r5, r6, u7, r7, u8, r8⟩

/-- C6 amended: `setNewBaseImage` forces `comparisonMode` to false, but
it does not reset the zoom factor or the pan offset — both keep
whatever value they had before the call. -/
theorem C6_setBaseImage_resets_comparison_not_zoom (b m : String) (s : AppState) :
    (setNewBaseImage b m s).isComparisonMode = false
    ∧ (setNewBaseImage b m s).zoomLevel = s.zoomLevel
    ∧ (setNewBaseImage b m s).translateX = s.translateX
    ∧ (setNewBaseImage b m s).translateY = s.translateY := by
  exact setNewBaseImage_view b m s

/-- C7 amended: the `toggleComparison` function itself is unguarded —
it flips `comparisonMode` regardless of `lastStyled` and shows no
message; the guard lives at the affordance level: `updateActionButtons`
disables the comparison toggle button whenever `lastStyled` is null, so
through the UI comparison mode can only be entered when `lastStyled` is
non-null. -/
theorem C7_guard_is_button_disabling (s : AppState)
    (h : s.lastStyledImageBase64 = none) :
    (updateActionButtons s).toggleComparisonDisabled = true
    ∧ (toggleComparison s).isComparisonMode = !s.isComparisonMode
    ∧ (toggleComparison s).toastMsg = s.toastMsg := by
  refine ⟨by simp [updateActionButtons, truthy, h], ?_, ?_⟩ <;>
    · unfold toggleComparison
      dsimp only
      repeat' split
      all_goals simp_all

/-- Witness for C7: the guard theorem applied at the concrete state
`baseState`, whose `lastStyled` slot is null. -/
theorem C7_guard_is_button_disabling_witness :
    (updateActionButtons baseState).toggleComparisonDisabled = true
    ∧ (toggleComparison baseState).isComparisonMode = !baseState.isComparisonMode
    ∧ (toggleComparison baseState).toastMsg = baseState.toastMsg :=
  C7_guard_is_button_disabling baseState (by with_unfolding_all decide)

/-- C4: entering comparison mode renders the original base image as the
"before" image and the last styled image as the "after" image; the
`current` slots are not consulted (the state `s` here is arbitrary, so
the result holds whatever undo/redo did to `current`). -/
theorem C4_comparison_renders_original_vs_lastStyled (s : AppState)
    (ob om lb lm : String)
    (hmode : s.isComparisonMode = false)
    (ho : s.originalImageBase64 = some ob) (hom : s.originalMimeType = some om)
    (hl : s.lastStyledImageBase64 = some lb) (hlm : s.lastStyledMimeType = some lm)
    (hob : ob ≠ "") (hom2 : om ≠ "") (hlb : lb ≠ "") (hlm2 : lm ≠ "") :
    (toggleComparison s).isComparisonMode = true
    ∧ (toggleComparison s).beforeImageSrc = some ⟨ob, om⟩
    ∧ (toggleComparison s).afterImageSrc = some ⟨lb, lm⟩ := by
  unfold toggleComparison
  simp [hmode, ho, hom, hl, hlm, hob, hom2, hlb, hlm2]

/-- Witness for C4, on the scenario of the claim: base image "base0",
two stylings, one undo (so `current` has moved back to imgA while the
original slot still holds the base image); toggling comparison then
shows the original base image as "before" and the ledger-cursor
snapshot — the value undo wrote into `lastStyled` — as "after". -/
theorem C4_comparison_renders_original_vs_lastStyled_witness :
    (toggleComparison undoneState).isComparisonMode = true
    ∧ (toggleComparison undoneState).beforeImageSrc = some ⟨"base0", "image/jpeg"⟩
    ∧ (toggleComparison undoneState).afterImageSrc = some ⟨"imgA", "image/png"⟩ :=
  C4_comparison_renders_original_vs_lastStyled undoneState
    "base0" "image/jpeg" "imgA" "image/png"
    (by with_unfolding_all decide) (by with_unfolding_all decide)
    (by with_unfolding_all decide) (by with_unfolding_all decide)
    (by with_unfolding_all decide) (by decide) (by decide) (by decide) (by decide)

/-- A part with no inline image data leaves the version slots and the
ledger unchanged and cannot set the found-image flag. -/
theorem applyStylePart_no_image (acc : AppState × Bool) (p : GenPart)
    (hp : p.inlineData = none) :
    (applyStylePart acc p).1.currentImageBase64 = acc.1.currentImageBase64
    ∧ (applyStylePart acc p).1.currentMimeType = acc.1.currentMimeType
    ∧ (applyStylePart acc p).1.lastStyledImageBase64 = acc.1.lastStyledImageBase64
    ∧ (applyStylePart acc p).1.lastStyledMimeType = acc.1.lastStyledMimeType
    ∧ (applyStylePart acc p).1.history = acc.1.history
    ∧ (applyStylePart acc p).1.historyIndex = acc.1.historyIndex
    ∧ (applyStylePart acc p).2 = acc.2 := by
  rcases p with ⟨pt, pd⟩
  obtain rfl : pd = none := hp
  rcases pt with _ | t
  · simp [applyStylePart]
  · unfold applyStylePart
    dsimp only
    split <;> simp

/-- C8: a styling response with no image part (only text parts) leaves
`current`, `lastStyled` and the history ledger unchanged, sets the
soft-failure message, and completes normally (the loading overlay is
cleared by the `finally` block rather than the error path). -/
theorem C8_text_only_response_is_soft_failure (parts : List GenPart) (s : AppState)
    (h : ∀ p ∈ parts, p.inlineData = none) :
    (styleRoomContinuation parts s).currentImageBase64 = s.currentImageBase64
    ∧ (styleRoomContinuation parts s).currentMimeType = s.currentMimeType
    ∧ (styleRoomContinuation parts s).lastStyledImageBase64 = s.lastStyledImageBase64
    ∧ (styleRoomContinuation parts s).lastStyledMimeType = s.lastStyledMimeType
    ∧ (styleRoomContinuation parts s).history = s.history
    ∧ (styleRoomContinuation parts s).historyIndex = s.historyIndex
    ∧ (styleRoomContinuation parts s).responseText =
        "The model did not return an image. Please try a different prompt."
    ∧ (styleRoomContinuation parts s).loadingVisible = false := by
  have key : ∀ (ps : List GenPart) (acc : AppState × Bool),
      (∀ p ∈ ps, p.inlineData = none) →
      (ps.foldl applyStylePart acc).1.currentImageBase64 = acc.1.currentImageBase64
      ∧ (ps.foldl applyStylePart acc).1.currentMimeType = acc.1.currentMimeType
      ∧ (ps.foldl applyStylePart acc).1.lastStyledImageBase64 = acc.1.lastStyledImageBase64
      ∧ (ps.foldl applyStylePart acc).1.lastStyledMimeType = acc.1.lastStyledMimeType
      ∧ (ps.foldl applyStylePart acc).1.history = acc.1.history
      ∧ (ps.foldl applyStylePart acc).1.historyIndex = acc.1.historyIndex
      ∧ (ps.foldl applyStylePart acc).2 = acc.2 := by
    intro ps
    induction ps with
    | nil => intro acc _; simp
    | cons p ps ih =>
        intro acc hall
        have hp : p.inlineData = none := hall p (List.mem_cons_self p ps)
        have hrest : ∀ q ∈ ps, q.inlineData = none :=
          fun q hq => hall q (List.mem_cons_of_mem p hq)
        obtain ⟨a1, a2, a3, a4, a5, a6, a7⟩ := applyStylePart_no_image acc p hp
        obtain ⟨b1, b2, b3, b4, b5, b6, b7⟩ := ih (applyStylePart acc p) hrest
        simp only [List.foldl_cons]
        exact ⟨b1.trans a1, b2.trans a2, b3.trans a3, b4.trans a4,
               b5.trans a5, b6.trans a6, b7.trans a7⟩
  obtain ⟨k1, k2, k3, k4, k5, k6, k7⟩ := key parts (s, false) h
  unfold styleRoomContinuation applyStyleResponse setLoading
  dsimp only
  rw [k7]
  simp_all

/-- Witness for C8: a concrete response consisting of a single text
part, processed in the concrete state `baseState`. -/
theorem C8_text_only_response_is_soft_failure_witness :
    (styleRoomContinuation [⟨some "a lovely room", none⟩] baseState).currentImageBase64
      = baseState.currentImageBase64
    ∧ (styleRoomContinuation [⟨some "a lovely room", none⟩] baseState).currentMimeType
      = baseState.currentMimeType
    ∧ (styleRoomContinuation [⟨some "a lovely room", none⟩] baseState).lastStyledImageBase64
      = baseState.lastStyledImageBase64
    ∧ (styleRoomContinuation [⟨some "a lovely room", none⟩] baseState).lastStyledMimeType
      = baseState.lastStyledMimeType
    ∧ (styleRoomContinuation [⟨some "a lovely room", none⟩] baseState).history
      = baseState.history
    ∧ (styleRoomContinuation [⟨some "a lovely room", none⟩] baseState).historyIndex
      = baseState.historyIndex
    ∧ (styleRoomContinuation [⟨some "a lovely room", none⟩] baseState).responseText
      = "The model did not return an image. Please try a different prompt."
    ∧ (styleRoomContinuation [⟨some "a lovely room", none⟩] baseState).loadingVisible
      = false :=
  C8_text_only_response_is_soft_failure [⟨some "a lovely room", none⟩] baseState
    (by decide)

/-- C3: `addToHistory` first drops all entries strictly after the
cursor, then appends the snapshot; when the resulting length would
exceed 20 the oldest entry (index 0 of the kept prefix) is evicted.
Afterwards the length never exceeds 20, the cursor is the last index,
and the last entry is the just-pushed snapshot.  The hypotheses are the
ledger invariant (length at most 20, cursor between -1 and length-1)
maintained by every operation of the program. -/
theorem C3_push_truncates_appends_bounds (b m : String) (s : AppState)
    (hlen : s.history.length ≤ 20)
    (hlo : -1 ≤ s.historyIndex)
    (hhi : s.historyIndex < (s.history.length : Int)) :
    ((addToHistory b m s).history =
      if (s.historyIndex + 1).toNat = 20
      then (s.history.take (s.historyIndex + 1).toNat).tail ++ [⟨b, m⟩]
      else s.history.take (s.historyIndex + 1).toNat ++ [⟨b, m⟩])
    ∧ (addToHistory b m s).history.length ≤ 20
    ∧ (addToHistory b m s).historyIndex
        = ((addToHistory b m s).history.length : Int) - 1
    ∧ (addToHistory b m s).history.getLast? = some ⟨b, m⟩ := by
  have hn_le : (s.historyIndex + 1).toNat ≤ s.history.length := by omega
  unfold addToHistory updateHistoryButtons MAX_HISTORY
  dsimp only
  by_cases h1 : s.historyIndex < (s.history.length : Int) - 1
  · -- truncation case: the cursor is strictly before the last entry
    have hn_lt : (s.historyIndex + 1).toNat < s.history.length := by omega
    have htk : (s.history.take (s.historyIndex + 1).toNat).length
        = (s.historyIndex + 1).toNat := by
      simp [List.length_take]
      omega
    rw [if_pos h1]
    have hnoshift : ¬ ((s.history.take (s.historyIndex + 1).toNat
        ++ [(⟨b, m⟩ : HistoryState)]).length > 20) := by
      simp [htk]
      omega
    rw [if_neg hnoshift]
    refine ⟨?_, ?_, ?_, ?_⟩
    · rw [if_neg (by omega)]
    · simp [htk]; omega
    · simp [htk]; omega
    · exact List.getLast?_concat _
  · -- the cursor is at the last entry: no truncation
    have hcur : s.historyIndex = (s.history.length : Int) - 1 := by omega
    rw [if_neg h1]
    by_cases h2 : s.history.length = 20
    · -- ledger full: eviction
      have hne : s.history ≠ [] := by
        intro hnil
        rw [hnil] at h2
        simp at h2
      have htail : (s.history ++ [(⟨b, m⟩ : HistoryState)]).tail
          = s.history.tail ++ [(⟨b, m⟩ : HistoryState)] :=
        List.tail_append_of_ne_nil hne
      have hshift : (s.history ++ [(⟨b, m⟩ : HistoryState)]).length > 20 := by
        simp [h2]
      rw [if_pos hshift]
      refine ⟨?_, ?_, ?_, ?_⟩
      · rw [if_pos (by omega), htail]
        have : (s.historyIndex + 1).toNat = s.history.length := by omega
        rw [this, List.take_length]
      · simp [htail, h2]
      · simp [htail, h2]; omega
      · rw [htail]
        exact List.getLast?_concat _
    · -- ledger not full: plain append
      have hnoshift : ¬ ((s.history ++ [(⟨b, m⟩ : HistoryState)]).length > 20) := by
        simp
        omega
      rw [if_neg hnoshift]
      refine ⟨?_, ?_, ?_, ?_⟩
      · rw [if_neg (by omega)]
        have : (s.historyIndex + 1).toNat = s.history.length := by omega
        rw [this, List.take_length]
      · simp; omega
      · simp; omega
      · exact List.getLast?_concat _

/-- Witness for C3: pushing onto the concrete one-entry ledger of
`styledOnce`. -/
theorem C3_push_truncates_appends_bounds_witness :
    ((addToHistory "w" "image/png" styledOnce).history =
      if (styledOnce.historyIndex + 1).toNat = 20
      then (styledOnce.history.take (styledOnce.historyIndex + 1).toNat).tail
        ++ [⟨"w", "image/png"⟩]
      else styledOnce.history.take (styledOnce.historyIndex + 1).toNat
        ++ [⟨"w", "image/png"⟩])
    ∧ (addToHistory "w" "image/png" styledOnce).history.length ≤ 20
    ∧ (addToHistory "w" "image/png" styledOnce).historyIndex
        = ((addToHistory "w" "image/png" styledOnce).history.length : Int) - 1
    ∧ (addToHistory "w" "image/png" styledOnce).history.getLast?
        = some ⟨"w", "image/png"⟩ :=
  C3_push_truncates_appends_bounds "w" "image/png" styledOnce
    (by with_unfolding_all decide) (by with_unfolding_all decide)
    (by with_unfolding_all decide)

/-- C5 amended: whenever undo actually succeeds (cursor strictly
positive) and the current/lastStyled slots agree with the cursor
snapshot — as they do after every push, undo and redo — undo followed
immediately by redo restores the cursor, the history, and the
current/lastStyled slots to their pre-undo values. -/
theorem C5_undo_then_redo_roundtrip (s : AppState) (st : HistoryState)
    (hpos : 0 < s.historyIndex)
    (hlt : s.historyIndex < (s.history.length : Int))
    (hget : s.history[s.historyIndex.toNat]? = some st)
    (hc1 : s.currentImageBase64 = some st.imageBase64)
    (hc2 : s.currentMimeType = some st.mimeType)
    (hl1 : s.lastStyledImageBase64 = some st.imageBase64)
    (hl2 : s.lastStyledMimeType = some st.mimeType) :
    (handleRedo (handleUndo s)).historyIndex = s.historyIndex
    ∧ (handleRedo (handleUndo s)).history = s.history
    ∧ (handleRedo (handleUndo s)).currentImageBase64 = s.currentImageBase64
    ∧ (handleRedo (handleUndo s)).currentMimeType = s.currentMimeType
    ∧ (handleRedo (handleUndo s)).lastStyledImageBase64 = s.lastStyledImageBase64
    ∧ (handleRedo (handleUndo s)).lastStyledMimeType = s.lastStyledMimeType := by
  have hidx : (s.historyIndex - 1).toNat < s.history.length := by omega
  obtain ⟨st', hst'⟩ : ∃ x, s.history[(s.historyIndex - 1).toNat]? = some x :=
    ⟨s.history[(s.historyIndex - 1).toNat], List.getElem?_eq_getElem hidx⟩
  have h1 : s.historyIndex - 1 + 1 = s.historyIndex := by omega
  unfold handleUndo
  rw [if_pos hpos, hst']
  unfold showToast updateActionButtons updateHistoryButtons
  dsimp only
  unfold handleRedo
  dsimp only
  rw [if_pos (by omega : (s.historyIndex - 1 : Int) < (s.history.length : Int) - 1)]
  rw [h1, hget]
  unfold showToast updateActionButtons updateHistoryButtons
  dsimp only
  exact ⟨rfl, rfl, hc1.symm, hc2.symm, hl1.symm, hl2.symm⟩

/-- Witness for C5: the round trip applied at the concrete state
`styledTwice` (cursor 1, current = lastStyled = imgB = snapshot 1). -/
theorem C5_undo_then_redo_roundtrip_witness :
    (handleRedo (handleUndo styledTwice)).historyIndex = styledTwice.historyIndex
    ∧ (handleRedo (handleUndo styledTwice)).history = styledTwice.history
    ∧ (handleRedo (handleUndo styledTwice)).currentImageBase64
        = styledTwice.currentImageBase64
    ∧ (handleRedo (handleUndo styledTwice)).currentMimeType
        = styledTwice.currentMimeType
    ∧ (handleRedo (handleUndo styledTwice)).lastStyledImageBase64
        = styledTwice.lastStyledImageBase64
    ∧ (handleRedo (handleUndo styledTwice)).lastStyledMimeType
        = styledTwice.lastStyledMimeType :=
  C5_undo_then_redo_roundtrip styledTwice imgB
    (by with_unfolding_all decide) (by with_unfolding_all decide)
    (by with_unfolding_all decide) (by with_unfolding_all decide)
    (by with_unfolding_all decide) (by with_unfolding_all decide)
    (by with_unfolding_all decide)

/-- The zoom/pan invariant maintained by every handler: the zoom factor
is a quarter-step value between 1.0 and 3.0, and whenever it is exactly
1.0 the pan offset is exactly (0, 0). -/
def ZoomInv (s : AppState) : Prop :=
  (∃ k : ℕ, 4 ≤ k ∧ k ≤ 12 ∧ s.zoomLevel = (k : ℚ) / 4)
  ∧ (s.zoomLevel = 1 → s.translateX = 0 ∧ s.translateY = 0)

/-- A step that moves neither the zoom factor nor the pan offset
preserves the zoom/pan invariant. -/
theorem zoomInv_of_frame {s t : AppState} (hz : t.zoomLevel = s.zoomLevel)
    (hx : t.translateX = s.translateX) (hy : t.translateY = s.translateY)
    (h : ZoomInv s) : ZoomInv t := by
  obtain ⟨⟨k, hk1, hk2, hk3⟩, hpan⟩ := h
  refine ⟨⟨k, hk1, hk2, by rw [hz]; exact hk3⟩, ?_⟩
  intro h1
  rw [hx, hy]
  exact hpan (by rw [← hz]; exact h1)

/-- The initial state satisfies the zoom/pan invariant. -/
theorem zoomInv_init : ZoomInv initState := by
  refine ⟨⟨4, le_refl 4, by omega, by norm_num [initState]⟩, ?_⟩
  intro _
  exact ⟨rfl, rfl⟩

/-- `handleZoomIn` preserves the zoom/pan invariant. -/
theorem zoomInv_zoomIn {s : AppState} (h : ZoomInv s) : ZoomInv (handleZoomIn s) := by
  obtain ⟨⟨k, hk1, hk2, hk3⟩, hpan⟩ := h
  unfold handleZoomIn
  split
  · rename_i hlt
    rw [hk3] at hlt
    have hq : (k : ℚ) < 12 := by linarith
    have hk12 : k < 12 := by exact_mod_cast hq
    refine ⟨⟨k + 1, by omega, by omega, ?_⟩, ?_⟩
    · show s.zoomLevel + 0.25 = ((k + 1 : ℕ) : ℚ) / 4
      rw [hk3]
      push_cast
      norm_num
      ring
    · intro h1
      replace h1 : s.zoomLevel + 0.25 = 1 := h1
      rw [hk3] at h1
      have hq4 : (4 : ℚ) ≤ (k : ℚ) := by exact_mod_cast hk1
      have : (1 : ℚ) ≤ (k : ℚ) / 4 := by linarith
      have : (0 : ℚ) < 0.25 := by norm_num
      exfalso
      linarith
  · exact ⟨⟨k, hk1, hk2, hk3⟩, hpan⟩

/-- `handleZoomOut` preserves the zoom/pan invariant. -/
theorem zoomInv_zoomOut {s : AppState} (h : ZoomInv s) : ZoomInv (handleZoomOut s) := by
  obtain ⟨⟨k, hk1, hk2, hk3⟩, hpan⟩ := h
  unfold handleZoomOut
  dsimp only
  split
  · rename_i hgt
    rw [hk3] at hgt
    have hq : (4 : ℚ) < (k : ℚ) := by linarith
    have hk4 : 4 < k := by exact_mod_cast hq
    have hcast : ((k - 1 : ℕ) : ℚ) = (k : ℚ) - 1 := by
      push_cast [Nat.cast_sub (by omega : 1 ≤ k)]
      ring
    have hval : s.zoomLevel - 0.25 = ((k - 1 : ℕ) : ℚ) / 4 := by
      rw [hk3, hcast]
      norm_num
      ring
    split
    · rename_i hz1
      exact ⟨⟨k - 1, by omega, by omega, hval⟩, fun _ => ⟨rfl, rfl⟩⟩
    · rename_i hz1
      refine ⟨⟨k - 1, by omega, by omega, hval⟩, ?_⟩
      intro h1
      exact absurd h1 hz1
  · exact ⟨⟨k, hk1, hk2, hk3⟩, hpan⟩

/-- `handleZoomReset` establishes the zoom/pan invariant outright. -/
theorem zoomInv_zoomReset (s : AppState) : ZoomInv (handleZoomReset s) := by
  refine ⟨⟨4, le_refl 4, by omega, by norm_num [handleZoomReset]⟩, ?_⟩
  intro _
  exact ⟨rfl, rfl⟩

/-- `handleDragStart` moves neither zoom nor pan. -/
theorem handleDragStart_view (x y : ℚ) (s : AppState) :
    (handleDragStart x y s).zoomLevel = s.zoomLevel
    ∧ (handleDragStart x y s).translateX = s.translateX
    ∧ (handleDragStart x y s).translateY = s.translateY := by
  unfold handleDragStart
  split <;> simp

/-- `handleDragMove` preserves the zoom/pan invariant: it moves the pan
only while the zoom factor is strictly above 1. -/
theorem zoomInv_dragMove (x y : ℚ) {s : AppState} (h : ZoomInv s) :
    ZoomInv (handleDragMove x y s) := by
  obtain ⟨⟨k, hk1, hk2, hk3⟩, hpan⟩ := h
  unfold handleDragMove
  split
  · rename_i hguard
    simp only [Bool.and_eq_true, decide_eq_true_eq] at hguard
    refine ⟨⟨k, hk1, hk2, hk3⟩, ?_⟩
    intro h1
    replace h1 : s.zoomLevel = 1 := h1
    exfalso
    rw [h1] at hguard
    exact absurd hguard.2 (by norm_num)
  · exact ⟨⟨k, hk1, hk2, hk3⟩, hpan⟩

/-- `handleDragEnd` moves neither zoom nor pan. -/
theorem handleDragEnd_view (s : AppState) :
    (handleDragEnd s).zoomLevel = s.zoomLevel
    ∧ (handleDragEnd s).translateX = s.translateX
    ∧ (handleDragEnd s).translateY = s.translateY := by
  unfold handleDragEnd
  split <;> simp

/-- Every reachable state satisfies the zoom/pan invariant. -/
theorem reachable_zoomInv {s : AppState} (h : Reachable s) : ZoomInv s := by
  induction h with
  | init => exact zoomInv_init
  | step e _ ih =>
      cases e with
      | newBase b m =>
          obtain ⟨_, hz, hx, hy⟩ := setNewBaseImage_view b m _
          exact zoomInv_of_frame hz hx hy ih
      | styleResponse ps =>
          obtain ⟨hz, hx, hy⟩ := styleRoomContinuation_view ps _
          exact zoomInv_of_frame hz hx hy ih
      | undo =>
          obtain ⟨_, _, _, hz, hx, hy, _, _⟩ := handleUndo_frame _
          exact zoomInv_of_frame hz hx hy ih
      | redo =>
          obtain ⟨_, _, _, hz, hx, hy, _, _⟩ := handleRedo_frame _
          exact zoomInv_of_frame hz hx hy ih
      | zoomIn => exact zoomInv_zoomIn ih
      | zoomOut => exact zoomInv_zoomOut ih
      | zoomReset => exact zoomInv_zoomReset _
      | dragStart x y =>
          obtain ⟨hz, hx, hy⟩ := handleDragStart_view x y _
          exact zoomInv_of_frame hz hx hy ih
      | dragMove x y => exact zoomInv_dragMove x y ih
      | dragEnd =>
          obtain ⟨hz, hx, hy⟩ := handleDragEnd_view _
          exact zoomInv_of_frame hz hx hy ih
      | toggleComp =>
          obtain ⟨hz, hx, hy⟩ := toggleComparison_view _
          exact zoomInv_of_frame hz hx hy ih

/-- C9 amended: for every reachable state whose zoom factor is strictly
below the 3.0 bound, zoomIn followed by zoomOut restores the zoom
factor exactly; at the bound the pair instead lowers it by 0.25 (see
the counterexample).  In every reachable state, a zoom factor of
exactly 1.0 forces the pan offset to be exactly (0, 0). -/
theorem C9_zoom_roundtrip_below_bound_and_pan (s : AppState) (hs : Reachable s) :
    (s.zoomLevel < 3 → (handleZoomOut (handleZoomIn s)).zoomLevel = s.zoomLevel)
    ∧ (s.zoomLevel = 1 → s.translateX = 0 ∧ s.translateY = 0) := by
  obtain ⟨⟨k, hk1, hk2, hk3⟩, hpan⟩ := reachable_zoomInv hs
  refine ⟨?_, hpan⟩
  intro hlt
  have hq4 : (4 : ℚ) ≤ (k : ℚ) := by exact_mod_cast hk1
  have h1le : (1 : ℚ) ≤ s.zoomLevel := by rw [hk3]; linarith
  unfold handleZoomIn
  rw [if_pos hlt]
  unfold handleZoomOut
  dsimp only
  rw [if_pos (by norm_num; linarith : s.zoomLevel + 0.25 > 1)]
  split
  · dsimp only; ring
  · dsimp only; ring

/-- Witness for C9: the amended round-trip and pan properties applied
at the concrete reachable state `baseState` (zoom 1, pan (0,0)). -/
theorem C9_zoom_roundtrip_below_bound_and_pan_witness :
    (baseState.zoomLevel < 3 →
      (handleZoomOut (handleZoomIn baseState)).zoomLevel = baseState.zoomLevel)
    ∧ (baseState.zoomLevel = 1 →
      baseState.translateX = 0 ∧ baseState.translateY = 0) :=
  C9_zoom_roundtrip_below_bound_and_pan baseState
    (Reachable.step (.newBase "base0" "image/jpeg") Reachable.init)

/-- C9 counterexample: the claim says zoomIn-then-zoomOut restores
zoomFactor for every reachable zoom state.  At the reachable state
`zoomMax` (zoom exactly 3.0), zoomIn is a no-op and zoomOut lowers the
factor, so the pair ends at 2.75, not 3.0. -/
theorem C9_claim_false_at_max_zoom :
    Reachable zoomMax
    ∧ zoomMax.zoomLevel = 3
    ∧ (handleZoomOut (handleZoomIn zoomMax)).zoomLevel = 11/4
    ∧ (handleZoomOut (handleZoomIn zoomMax)).zoomLevel ≠ zoomMax.zoomLevel := by
  refine ⟨?_, by with_unfolding_all decide⟩
  exact Reachable.step .zoomIn (Reachable.step .zoomIn (Reachable.step .zoomIn
    (Reachable.step .zoomIn (Reachable.step .zoomIn (Reachable.step .zoomIn
      (Reachable.step .zoomIn (Reachable.step .zoomIn
        (Reachable.step (.newBase "base0" "image/jpeg") Reachable.init))))))))

end VirtualRoom
